import Mathlib

/-!
Verification of the incomplete-information matching core of the
recommendation agent: the profile model (`models/user_profile.py`), the
exact-match tool (`tools/certain_matching_mcp.py`) and the speculative
matching tool (`tools/guessed_matching_mcp.py`).

Python values carried by profile fields, update patches and parsed JSON
responses are modelled by the dynamic type `Value`; Python `==` is
modelled by `pyEq` (numeric types are unified into one constructor, so
`0xffff == 65535.0` holds as in Python; `True == 1` holds as in Python;
dict equality is modelled as ordered association-list equality, which
coincides with Python's on the values this code constructs).
-/

/-- A dynamic Python value: numbers (int/float unified), strings, booleans,
`None`, lists, and JSON-style dicts as association lists. -/
inductive Value where
  | num (n : Int)
  | str (s : String)
  | bool (b : Bool)
  | none
  | list (xs : List Value)
  | dict (kvs : List (String × Value))

mutual

/-- Python `==` on `Value`s.  Booleans compare equal to the integers 0/1 as
in Python.  Lists compare elementwise; dicts compare as ordered
association lists. -/
def pyEq : Value → Value → Bool
  | .num a, .num b => decide (a = b)
  | .num a, .bool b => decide (a = (if b then 1 else 0))
  | .bool a, .num b => decide ((if a then (1 : Int) else 0) = b)
  | .bool a, .bool b => decide (a = b)
  | .str a, .str b => decide (a = b)
  | .none, .none => true
  | .list as, .list bs => pyEqList as bs
  | .dict as, .dict bs => pyEqDict as bs
  | _, _ => false

def pyEqList : List Value → List Value → Bool
  | [], [] => true
  | a :: as, b :: bs => pyEq a b && pyEqList as bs
  | _, _ => false

def pyEqDict : List (String × Value) → List (String × Value) → Bool
  | [], [] => true
  | (k, a) :: as, (l, b) :: bs => decide (k = l) && pyEq a b && pyEqDict as bs
  | _, _ => false

end

/-- Python `x in xs` membership for list values. -/
def pyMem (x : Value) (xs : List Value) : Bool :=
  xs.any (fun e => pyEq x e)

/-- Python truthiness. -/
def pyTruthy : Value → Bool
  | .num n => decide (n ≠ 0)
  | .str s => !s.isEmpty
  | .bool b => b
  | .none => false
  | .list xs => !xs.isEmpty
  | .dict kvs => !kvs.isEmpty

/-! ## Profile model (`models/user_profile.py`)

The dataclass `UserProfile` is dynamically typed: any field can come to
hold any Python value through `upgradeProfile`, so every field is
modelled as a `Value`.  `ProfileField` enumerates the dataclass's
attributes in annotation order (the duplicated `work_experience` /
`extracurricular` annotations keep their first position, and their last
default — the empty list — wins). -/

inductive ProfileCompleteness where
  | complete
  | incomplete
  | minimal
deriving DecidableEq, Repr

/-- The `.value` string of the `ProfileCompleteness` enum. -/
def ProfileCompleteness.value : ProfileCompleteness → String
  | .complete => "complete"
  | .incomplete => "incomplete"
  | .minimal => "minimal"

structure UserProfile where
  GPA : Value
  SCHOOL : Value
  GRE : Value
  TOEFL : Value
  ITELS : Value
  major : Value
  degree : Value
  background_institution_rating : Value
  work_experience : Value
  extracurricular : Value
  research : Value
  if_research : Value
  target_major : Value
  target_country : Value
  region : Value
  preferred_universities : Value
  budget_max : Value
  budget_min : Value
  rank_max : Value

/-- `UserProfile()` — the dataclass defaults. -/
def defaultUserProfile : UserProfile where
  GPA := .num 65535
  SCHOOL := .str "UNKNOWN"
  GRE := .num 65535
  TOEFL := .num 65535
  ITELS := .num 65535
  major := .str "UNKNOWN"
  degree := .str "UNKNOWN"
  background_institution_rating := .str "UNKNOWN"
  work_experience := .list []
  extracurricular := .list []
  research := .list []
  if_research := .bool false
  target_major := .str "UNKNOWN"
  target_country := .str "UNKNOWN"
  region := .list []
  preferred_universities := .list []
  budget_max := .num 65535
  budget_min := .num 0
  rank_max := .num 65535

/-- The dataclass's attributes, in annotation order. -/
inductive ProfileField where
  | GPA | SCHOOL | GRE | TOEFL | ITELS | major | degree
  | background_institution_rating | work_experience | extracurricular
  | research | if_research | target_major | target_country | region
  | preferred_universities | budget_max | budget_min | rank_max
deriving DecidableEq, Repr

open ProfileField in
/-- All attributes in annotation order (the order `asdict` emits). -/
def profileFields : List ProfileField :=
  [GPA, SCHOOL, GRE, TOEFL, ITELS, major, degree,
   background_institution_rating, work_experience, extracurricular,
   research, if_research, target_major, target_country, region,
   preferred_universities, budget_max, budget_min, rank_max]

/-- The Python attribute name of a field. -/
def fieldName : ProfileField → String
  | .GPA => "GPA"
  | .SCHOOL => "SCHOOL"
  | .GRE => "GRE"
  | .TOEFL => "TOEFL"
  | .ITELS => "ITELS"
  | .major => "major"
  | .degree => "degree"
  | .background_institution_rating => "background_institution_rating"
  | .work_experience => "work_experience"
  | .extracurricular => "extracurricular"
  | .research => "research"
  | .if_research => "if_research"
  | .target_major => "target_major"
  | .target_country => "target_country"
  | .region => "region"
  | .preferred_universities => "preferred_universities"
  | .budget_max => "budget_max"
  | .budget_min => "budget_min"
  | .rank_max => "rank_max"

/-- `getattr(profile, name)` for a known attribute. -/
def getF (p : UserProfile) : ProfileField → Value
  | .GPA => p.GPA
  | .SCHOOL => p.SCHOOL
  | .GRE => p.GRE
  | .TOEFL => p.TOEFL
  | .ITELS => p.ITELS
  | .major => p.major
  | .degree => p.degree
  | .background_institution_rating => p.background_institution_rating
  | .work_experience => p.work_experience
  | .extracurricular => p.extracurricular
  | .research => p.research
  | .if_research => p.if_research
  | .target_major => p.target_major
  | .target_country => p.target_country
  | .region => p.region
  | .preferred_universities => p.preferred_universities
  | .budget_max => p.budget_max
  | .budget_min => p.budget_min
  | .rank_max => p.rank_max

/-- `setattr(profile, name, v)` for a known attribute. -/
def setF (p : UserProfile) : ProfileField → Value → UserProfile
  | .GPA, v => { p with GPA := v }
  | .SCHOOL, v => { p with SCHOOL := v }
  | .GRE, v => { p with GRE := v }
  | .TOEFL, v => { p with TOEFL := v }
  | .ITELS, v => { p with ITELS := v }
  | .major, v => { p with major := v }
  | .degree, v => { p with degree := v }
  | .background_institution_rating, v => { p with background_institution_rating := v }
  | .work_experience, v => { p with work_experience := v }
  | .extracurricular, v => { p with extracurricular := v }
  | .research, v => { p with research := v }
  | .if_research, v => { p with if_research := v }
  | .target_major, v => { p with target_major := v }
  | .target_country, v => { p with target_country := v }
  | .region, v => { p with region := v }
  | .preferred_universities, v => { p with preferred_universities := v }
  | .budget_max, v => { p with budget_max := v }
  | .budget_min, v => { p with budget_min := v }
  | .rank_max, v => { p with rank_max := v }

/-- Resolves a patch key to a data attribute (`hasattr` check; unknown
keys yield `Option.none` and are skipped with a warning in the source). -/
def fieldOfName (k : String) : Option ProfileField :=
  profileFields.find? (fun f => fieldName f = k)

/-- `UserProfile.to_dict` / `asdict`: all attributes in annotation order. -/
def UserProfile.to_dict (p : UserProfile) : List (String × Value) :=
  profileFields.map (fun f => (fieldName f, getF p f))

/-! ### `UserProfile.upgradeProfile` -/

/-- The list-merge half of `upgradeProfile`: append each patch item not
already present (Python `in`, i.e. `pyEq`) to the current list, reporting
the attribute name once per appended item. -/
def mergeList (key : String) (cur : List Value) : List Value → List Value × List String
  | [] => (cur, [])
  | x :: xs =>
      if pyMem x cur then mergeList key cur xs
      else
        let r := mergeList key (cur ++ [x]) xs
        (r.1, key :: r.2)

/-- Python `isinstance(v, list)`. -/
def isListV : Value → Bool
  | .list _ => true
  | _ => false

/-- The elements of a list value (only queried when `isListV` holds). -/
def listElems : Value → List Value
  | .list xs => xs
  | _ => []

/-- One `for key, value in update_data.items()` iteration of
`upgradeProfile`: list-typed current and patch values are merged, any
other pair overwrites when Python `!=` holds. -/
def applyEntry (p : UserProfile) (e : String × Value) : UserProfile × List String :=
  match fieldOfName e.1 with
  | Option.none => (p, [])
  | some f =>
      let cur := getF p f
      if isListV cur && isListV e.2 then
        let r := mergeList e.1 (listElems cur) (listElems e.2)
        (setF p f (.list r.1), r.2)
      else if pyEq cur e.2 then (p, [])
      else (setF p f e.2, [e.1])

/-- `UserProfile.upgradeProfile`: apply an update patch (a Python dict,
modelled as an association list with distinct keys in insertion order),
returning the updated profile and the list of reported field names. -/
def upgradeProfile (p : UserProfile) : List (String × Value) → UserProfile × List String
  | [] => (p, [])
  | e :: rest =>
      let r1 := applyEntry p e
      let r2 := upgradeProfile r1.1 rest
      (r2.1, r1.2 ++ r2.2)

/-! ### `UserProfile.check_profile_completeness` -/

/-- The membership test `value in ["UNKNOWN", 0xffff, [], None]`. -/
def isMissingValue (v : Value) : Bool :=
  pyEq v (.str "UNKNOWN") || pyEq v (.num 65535) || pyEq v (.list []) ||
    pyEq v .none

/-- `essential_fields` — the attributes that cannot be guessed, in dict
insertion order. -/
def essentialItems (p : UserProfile) : List (String × Value) :=
  [("degree", p.degree), ("major", p.major),
   ("target_country", p.target_country), ("target_major", p.target_major)]

/-- `important_fields` — the attributes that can be guessed, in dict
insertion order. -/
def importantItems (p : UserProfile) : List (String × Value) :=
  [("GPA", p.GPA), ("region", p.region),
   ("background_institution_rating", p.background_institution_rating),
   ("rank_max", p.rank_max), ("budget_max", p.budget_max)]

/-- `missing_essential` as computed by `check_profile_completeness`. -/
def missing_essential (p : UserProfile) : List String :=
  ((essentialItems p).filter (fun kv => isMissingValue kv.2)).map Prod.fst

/-- `missing_important` as computed by `check_profile_completeness`. -/
def missing_important (p : UserProfile) : List String :=
  ((importantItems p).filter (fun kv => isMissingValue kv.2)).map Prod.fst

/-- `UserProfile.check_profile_completeness`. -/
def check_profile_completeness (p : UserProfile) :
    ProfileCompleteness × List String :=
  let mE := missing_essential p
  let mI := missing_important p
  if mE.isEmpty && mI.isEmpty then (.complete, [])
  else if mE.isEmpty then (.minimal, mI)
  else (.incomplete, mE ++ mI)

/-! ## MCP response envelope (`core/mcp_message.py`) -/

inductive MCPStatus where
  | success
  | error
  | no_change
deriving DecidableEq, Repr

/-- `MCPResponse` with the fields the matching tools use (`tool_calls` and
`metadata` are never set by them). -/
structure MCPResponse (α : Type) where
  status : MCPStatus
  message : String
  data : Option α

def MCPResponse.success {α : Type} (msg : String) (d : α) : MCPResponse α :=
  ⟨.success, msg, some d⟩

def MCPResponse.error {α : Type} (msg : String) : MCPResponse α :=
  ⟨.error, msg, Option.none⟩

/-! ## String formatting helpers (Python `str`/`repr` as used in messages) -/

mutual

/-- Python `repr` of a value (container cases as emitted by CPython). -/
def pyRepr : Value → String
  | .num n => toString n
  | .str s => "\x27" ++ s ++ "\x27"
  | .bool b => if b then "True" else "False"
  | .none => "None"
  | .list xs => "[" ++ pyReprSeq xs ++ "]"
  | .dict kvs => "\x7b" ++ pyReprDictSeq kvs ++ "\x7d"

def pyReprSeq : List Value → String
  | [] => ""
  | [x] => pyRepr x
  | x :: y :: xs => pyRepr x ++ ", " ++ pyReprSeq (y :: xs)

def pyReprDictSeq : List (String × Value) → String
  | [] => ""
  | [kv] => "\x27" ++ kv.1 ++ "\x27: " ++ pyRepr kv.2
  | kv :: l :: kvs =>
      "\x27" ++ kv.1 ++ "\x27: " ++ pyRepr kv.2 ++ ", " ++ pyReprDictSeq (l :: kvs)

end

/-- Python `str` of a value (strings unquoted, containers via `repr`). -/
def pyStr : Value → String
  | .str s => s
  | v => pyRepr v

/-- Python `repr` of a list of strings, as an f-string renders
`{missing_fields}`. -/
def pyListRepr (xs : List String) : String :=
  "[" ++ String.intercalate ", " (xs.map (fun s => "\x27" ++ s ++ "\x27")) ++ "]"

/-- The Python type name of a value (floats are conflated with ints by
this model). -/
def pyTypeName : Value → String
  | .num _ => "int"
  | .str _ => "str"
  | .bool _ => "bool"
  | .none => "NoneType"
  | .list _ => "list"
  | .dict _ => "dict"

/-- `str(e)` of the `AttributeError` raised by accessing `attr` on a
value that lacks it. -/
def pyGetAttrError (v : Value) (attr : String) : String :=
  "\x27" ++ pyTypeName v ++ "\x27 object has no attribute \x27" ++ attr ++ "\x27"

/-- Python `dict.update`: overwrite existing keys in place, append new
keys in patch order. -/
def dictUpdate (base upd : List (String × Value)) : List (String × Value) :=
  (base.map (fun kv =>
    match List.lookup kv.1 upd with
    | some v => (kv.1, v)
    | Option.none => kv)) ++
    upd.filter (fun kv => (List.lookup kv.1 base).isNone)

/-- `len(v.get(key, []))` with Python's exception behaviour: `.get`
raises `AttributeError` on a non-dict receiver, and `len` raises
`TypeError` on a number, boolean or `None`. -/
def pyGetLen (v : Value) (key : String) : Except String Nat :=
  match v with
  | .dict kvs =>
      match List.lookup key kvs with
      | Option.none => Except.ok 0
      | some (.list xs) => Except.ok xs.length
      | some (.str a) => Except.ok a.length
      | some (.dict d) => Except.ok d.length
      | some other =>
          Except.error ("object of type \x27" ++ pyTypeName other ++
            "\x27 has no len()")
  | _ => Except.error (pyGetAttrError v "get")

/-- `text.split('。')[0] + '。'`. -/
def firstSentence (t : String) : String :=
  (t.splitOn "。").headD "" ++ "。"

/-! ## Exact-match tool (`tools/certain_matching_mcp.py`) -/

namespace CertainMatchingMCP

/-- The membership test
`v in ["UNKNOWN", 0, 0.0, 0xffff, None, []]` used to drop invalid or
default values before querying the external service. -/
def isInvalidApiValue (v : Value) : Bool :=
  pyEq v (.str "UNKNOWN") || pyEq v (.num 0) || pyEq v (.num 65535) ||
    pyEq v .none || pyEq v (.list [])

/-- `CertainMatchingMCP._convert_profile_to_api_format`. -/
def convert_profile_to_api_format (p : UserProfile) : List (String × Value) :=
  let major_list : Value :=
    if pyTruthy p.major && !(pyEq p.major (.str "UNKNOWN")) then
      match p.major with
      | .list xs => .list xs
      | v => .list [v]
    else .list []
  let api_data : List (String × Value) :=
    [("degree", p.degree), ("gpa", p.GPA), ("major", major_list),
     ("budget_max", p.budget_max), ("rank_max", p.rank_max),
     ("region", p.region),
     ("background_institution_rating", p.background_institution_rating)]
  api_data.filter (fun kv => !(isInvalidApiValue kv.2))

/-- The `ProfileIncomplete`-style error message of `CertainMatchingMCP.run`. -/
def incompleteMsg (missing : List String) : String :=
  "用户画像信息不完整，缺少必需字段: " ++ pyListRepr missing ++ "。请先补充这些信息。"

/-- The `data` payload of a successful exact match. -/
structure CertainData where
  supplement_matches : Value
  case_matches : Value
  profile_used : List (String × Value)
  completeness : String

/-- `CertainMatchingMCP.run`, for an existing profile.  The two external
calls are modelled by oracles: `o1` is the parsed response of
`POST /api/supplement_match` (or the exception text), `o2` of
`POST /api/case_match`.  Returns the response and the number of external
calls issued. -/
def run (p : UserProfile) (o1 o2 : Except String Value) :
    MCPResponse CertainData × Nat :=
  let c := check_profile_completeness p
  if c.1 = .incomplete then (MCPResponse.error (incompleteMsg c.2), 0)
  else
    let api_data := convert_profile_to_api_format p
    if api_data.isEmpty then
      (MCPResponse.error "用户画像中没有足够的有效信息进行匹配", 0)
    else
      match o1 with
      | .error e => (MCPResponse.error ("匹配过程中发生错误: " ++ e), 1)
      | .ok supplement_result =>
          match o2 with
          | .error e => (MCPResponse.error ("匹配过程中发生错误: " ++ e), 2)
          | .ok case_result =>
              match pyGetLen supplement_result "matches" with
              | .error e =>
                  (MCPResponse.error ("匹配过程中发生错误: " ++ e), 2)
              | .ok supplement_count =>
                  match pyGetLen case_result "cases" with
                  | .error e =>
                      (MCPResponse.error ("匹配过程中发生错误: " ++ e), 2)
                  | .ok case_count =>
                      (MCPResponse.success
                        ("匹配完成！找到 " ++ toString supplement_count ++
                          " 个项目推荐和 " ++ toString case_count ++
                          " 个相似案例。")
                        { supplement_matches := supplement_result,
                          case_matches := case_result,
                          profile_used := api_data,
                          completeness := c.1.value }, 2)

end CertainMatchingMCP

/-! ## Speculative matching tool (`tools/guessed_matching_mcp.py`)

The thread-pool fan-out is modelled explicitly: each prepared task is
submitted once; the scheduler finishes the in-flight calls in some
completion order (a list of task indices); every call's outcome — the
parsed JSON payload, or `Option.none` for an exception / non-200
response — is fixed per task index.  The collection loop of
`_parallel_api_calls_with_threads` iterates the `future_to_task` dict in
submission order and blocks on each future's result, which is read off
the completion log. -/

namespace GuessedMatchingMCP

/-- The static `guess_options` table of `GuessedMatchingMCP.__init__`. -/
def guess_options : List (String × List Value) :=
  [("gpa", [.num 85, .num 87, .num 90]),
   ("region", [.str "美国", .str "英国", .str "加拿大", .str "新加坡", .str "香港"]),
   ("background_institution_rating", [.str "985", .str "211", .str "双非"]),
   ("rank_max", [.num 10, .num 30, .num 50, .num 100]),
   ("budget_max", [.num 1000000, .num 800000, .num 300000, .num 400000])]

/-- Candidate values for a field name, when the table has the field. -/
def guessOptionsFor (f : String) : Option (List Value) :=
  List.lookup f guess_options

/-- `itertools.product`: cross product of the candidate lists, rightmost
factor varying fastest. -/
def cartProduct : List (List Value) → List (List Value)
  | [] => [[]]
  | xs :: rest => xs.flatMap (fun x => (cartProduct rest).map (fun c => x :: c))

/-- `GuessedMatchingMCP._generate_guess_combinations`: only missing
fields present in `guess_options` are guessed; each combination is the
dict `zip(fields_to_guess, combo)`. -/
def generate_guess_combinations (missing_fields : List String) :
    List (List (String × Value)) :=
  let fields_to_guess :=
    missing_fields.filter (fun f => (guessOptionsFor f).isSome)
  if fields_to_guess.isEmpty then []
  else
    let guess_values := fields_to_guess.map (fun f => (guessOptionsFor f).getD [])
    (cartProduct guess_values).map (fun combo => fields_to_guess.zip combo)

/-- `GuessedMatchingMCP._convert_profile_to_api_format` (same conversion
and invalid-value filter as the exact-match tool). -/
def convert_profile_to_api_format (p : UserProfile) : List (String × Value) :=
  let major_list : Value :=
    if pyTruthy p.major && !(pyEq p.major (.str "UNKNOWN")) then
      match p.major with
      | .list xs => .list xs
      | v => .list [v]
    else .list []
  let api_data : List (String × Value) :=
    [("degree", p.degree), ("gpa", p.GPA), ("major", major_list),
     ("budget_max", p.budget_max), ("rank_max", p.rank_max),
     ("region", p.region),
     ("background_institution_rating", p.background_institution_rating)]
  api_data.filter (fun kv => !(CertainMatchingMCP.isInvalidApiValue kv.2))

/-- The f-string `组合{i+1}({guess_str})` with `{k}="{v}"` per guessed
field. -/
def guessInfoString (i : Nat) (guess : List (String × Value)) : String :=
  "组合" ++ toString (i + 1) ++ "(" ++
    String.intercalate ", "
      (guess.map (fun kv => kv.1 ++ "=\"" ++ pyStr kv.2 ++ "\"")) ++ ")"

/-- One prepared task of `_parallel_api_calls_with_threads`. -/
structure GuessTask where
  api_data : List (String × Value)
  guess_info : String
  guess : List (String × Value)
  temp_profile_dict : List (String × Value)

/-- The task-preparation loop: deep-copy the base profile dict, overlay
the guess, rebuild a `UserProfile` through `upgradeProfile`, convert it,
and skip combinations whose API payload is empty. -/
def prepareTasks (combos : List (List (String × Value)))
    (base : List (String × Value)) : List GuessTask :=
  combos.enum.filterMap (fun ic =>
    let temp_profile_dict := dictUpdate base ic.2
    let temp_profile := (upgradeProfile defaultUserProfile temp_profile_dict).1
    let api_data := convert_profile_to_api_format temp_profile
    if api_data.isEmpty then Option.none
    else some { api_data := api_data,
                guess_info := guessInfoString ic.1 ic.2,
                guess := ic.2,
                temp_profile_dict := temp_profile_dict })

/-- The completion log of one concurrent execution: the outcome of each
submitted call, in the order the scheduler finished them. -/
def futureLog (outcome : Nat → Option Value) (order : List Nat) :
    List (Nat × Option Value) :=
  order.map (fun i => (i, outcome i))

/-- One aggregated entry of `all_results`. -/
structure GuessResult where
  guess : List (String × Value)
  profile : List (String × Value)
  results : Value
  guess_info : String

/-- `GuessedMatchingMCP._parallel_api_calls_with_threads`: submit every
task, then collect in submission order, retaining an entry exactly for
the calls whose payload is truthy (a falsy payload or an exception
counts as a failed call). -/
def parallel_api_calls_with_threads (tasks : List GuessTask)
    (outcome : Nat → Option Value) (order : List Nat) : List GuessResult :=
  tasks.enum.filterMap (fun it =>
    match List.lookup it.1 (futureLog outcome order) with
    | some (some r) =>
        if pyTruthy r then
          some { guess := it.2.guess, profile := it.2.temp_profile_dict,
                 results := r, guess_info := it.2.guess_info }
        else Option.none
    | _ => Option.none)

/-- The `TooManyUnknowns` message, carrying the missing attribute names
and their count. -/
def tooManyMsg (missing : List String) : String :=
  "您缺失的字段过多（" ++ toString missing.length ++ "个：" ++
    String.intercalate ", " missing ++
    "），猜测匹配仅适用于缺失1-2个字段的情况。请先补充更多信息后再使用此功能。"

/-- The `NoGuessableFields` message. -/
def noGuessMsg (missing : List String) : String :=
  "缺失的字段（" ++ String.intercalate ", " missing ++
    "）无法进行有效猜测，请您补充更多信息"

/-- `supplement_results.get('summary', {}).get('text')`, with Python's
exception behaviour: `.get` raises `AttributeError` when its receiver is
not a dict (an absent `summary` key falls back to the dict default `{}`,
whose `.get('text')` is `None`). -/
def summaryTextOf (r : Value) : Except String (Option Value) :=
  match r with
  | .dict kvs =>
      match List.lookup "summary" kvs with
      | Option.none => Except.ok Option.none
      | some sv =>
          match sv with
          | .dict skvs => Except.ok (List.lookup "text" skvs)
          | _ => Except.error (pyGetAttrError sv "get")
  | _ => Except.error (pyGetAttrError r "get")

/-- The per-combination digest appended to `results_summary`.  The
truthiness guard short-circuits before the `.get` chain; a raised
`AttributeError` — from the `.get` chain on a non-dict, or from
`summary_text.split('。')` on a truthy non-string text — propagates to
`run`'s outer exception handler. -/
def resultDigest (res : GuessResult) : Except String String :=
  let guess_str := String.intercalate ", "
    (res.guess.map (fun kv => kv.1 ++ "为\"" ++ pyStr kv.2 ++ "\""))
  let header := "\n--- \n**" ++ res.guess_info ++ " - 如果您的" ++ guess_str ++ "：**\n"
  if pyTruthy res.results then
    match summaryTextOf res.results with
    | Except.error e => Except.error e
    | Except.ok Option.none => Except.ok (header ++ "未能找到匹配的项目。\n")
    | Except.ok (some t) =>
        if pyTruthy t then
          match t with
          | .str st => Except.ok (header ++ firstSentence st ++ "\n")
          | _ => Except.error (pyGetAttrError t "split")
        else Except.ok (header ++ "未能找到匹配的项目。\n")
  else Except.ok (header ++ "未能找到匹配的项目。\n")

/-- The `results_summary` loop: concatenate the per-result digests in
order, propagating the first exception. -/
def resultsSummary : List GuessResult → Except String String
  | [] => Except.ok ""
  | r :: rest =>
      match resultDigest r with
      | Except.error e => Except.error e
      | Except.ok d =>
          match resultsSummary rest with
          | Except.error e => Except.error e
          | Except.ok ds => Except.ok (d ++ ds)

/-- The `final_summary` narrative of a successful speculative run. -/
def finalSummary (total : Nat) (all_results : List GuessResult)
    (results_summary : String) : String :=
  "您的信息尚不完整，我们并行处理了 " ++ toString total ++
    " 个猜测组合，成功获得 " ++ toString all_results.length ++ " 个结果：" ++
    results_summary ++
    "\n\n为了给您更精确的推荐，请告诉我您缺失的信息。"

/-- The `matching_summary` data payload of a successful speculative run. -/
structure GuessedData where
  guessed_results : List GuessResult
  missing_fields : List String
  completeness : String
  match_type : String
  total_combinations : Nat
  successful_combinations : Nat
  failed_combinations : Nat

/-- The tail of a fan-out run that collected at least one result: build
the narrative; an exception raised in the digest loop is caught by the
outer handler and becomes the unexpected-error envelope. -/
def assembleGuessedResponse (missing : List String)
    (completeness : ProfileCompleteness) (total : Nat)
    (all_results : List GuessResult) : MCPResponse GuessedData :=
  match resultsSummary all_results with
  | Except.error e =>
      MCPResponse.error ("猜测匹配过程中发生未预期错误: " ++ e)
  | Except.ok rsum =>
      MCPResponse.success (finalSummary total all_results rsum)
        { guessed_results := all_results,
          missing_fields := missing,
          completeness := completeness.value,
          match_type := "guessed_parallel_threads",
          total_combinations := total,
          successful_combinations := all_results.length,
          failed_combinations := total - all_results.length }

/-- `GuessedMatchingMCP.run` (the synchronous thread-pool entry point),
for an existing profile.  Returns the response and the number of
external calls issued (one per submitted task). -/
def run (p : UserProfile) (outcome : Nat → Option Value)
    (order : List Nat) : MCPResponse GuessedData × Nat :=
  let c := check_profile_completeness p
  if c.1 = .complete then
    (MCPResponse.error "您的信息已经完整，建议使用确定匹配工具获得更精确的结果", 0)
  else if 2 < c.2.length then (MCPResponse.error (tooManyMsg c.2), 0)
  else
    let combos := generate_guess_combinations c.2
    if combos.isEmpty then (MCPResponse.error (noGuessMsg c.2), 0)
    else
      let tasks := prepareTasks combos p.to_dict
      let all_results := parallel_api_calls_with_threads tasks outcome order
      if all_results.isEmpty then
        (MCPResponse.error "所有猜测组合的API调用都失败了，请检查网络连接或稍后再试",
          tasks.length)
      else
        (assembleGuessedResponse c.2 c.1 combos.length all_results,
          tasks.length)

end GuessedMatchingMCP

/-! ## Typed profiles

The dataclass annotations declare a static type per attribute; a profile
is well-typed when every attribute holds a value of its annotated type
(`major` may also hold a list of strings — both converters anticipate
that with an `isinstance` check). -/

def isNumV : Value → Bool
  | .num _ => true
  | _ => false

def isStrV : Value → Bool
  | .str _ => true
  | _ => false

def isBoolV : Value → Bool
  | .bool _ => true
  | _ => false

def isStrListV : Value → Bool
  | .list xs => xs.all isStrV
  | _ => false

def WellTyped (p : UserProfile) : Bool :=
  isNumV p.GPA && isStrV p.SCHOOL && isNumV p.GRE && isNumV p.TOEFL &&
    isNumV p.ITELS && (isStrV p.major || isStrListV p.major) &&
    isStrV p.degree && isStrV p.background_institution_rating &&
    isStrListV p.work_experience && isStrListV p.extracurricular &&
    isStrListV p.research && isBoolV p.if_research &&
    isStrV p.target_major && isStrV p.target_country &&
    isStrListV p.region && isStrListV p.preferred_universities &&
    isNumV p.budget_max && isNumV p.budget_min && isNumV p.rank_max

/-! ## Auxiliary definitions used by the verification -/

/-- Saturation of one patch entry at a profile: applying the entry would
change nothing and report nothing. -/
def entrySaturated (q : UserProfile) (e : String × Value) : Bool :=
  match fieldOfName e.1 with
  | Option.none => true
  | some f =>
      let cur := getF q f
      if isListV cur && isListV e.2 then
        (listElems e.2).all (fun x => pyMem x (listElems cur))
      else pyEq cur e.2

/-- Whether the external call for task index `i` succeeded with a truthy
payload (the source counts a call as successful exactly when
`future.result()` returns without exception and the payload is truthy). -/
def callSucceeds (outcome : Nat → Option Value) (i : Nat) : Bool :=
  match outcome i with
  | some r => pyTruthy r
  | Option.none => false

/-- The number of submitted calls that succeed. -/
def successCount (tasks : List GuessedMatchingMCP.GuessTask)
    (outcome : Nat → Option Value) : Nat :=
  ((List.range tasks.length).filter (callSucceeds outcome)).length

/-- The aggregation the spec prescribes: one retained entry per
successful call, in cross-product generation (= submission) order. -/
def generationOrderResults (tasks : List GuessedMatchingMCP.GuessTask)
    (outcome : Nat → Option Value) : List GuessedMatchingMCP.GuessResult :=
  tasks.enum.filterMap (fun it =>
    match outcome it.1 with
    | some r =>
        if pyTruthy r then
          some { guess := it.2.guess, profile := it.2.temp_profile_dict,
                 results := r, guess_info := it.2.guess_info }
        else Option.none
    | Option.none => Option.none)

/-- A successful payload the digest loop can narrate without raising an
`AttributeError`: either falsy, or a dict whose `summary` entry (when
present) is a dict and whose `text` entry (when present and truthy) is a
string. -/
def payloadDigestSafe (r : Value) : Bool :=
  !(pyTruthy r) ||
    (match r with
     | .dict kvs =>
         (match List.lookup "summary" kvs with
          | Option.none => true
          | some (.dict skvs) =>
              (match List.lookup "text" skvs with
               | Option.none => true
               | some t => !(pyTruthy t) || isStrV t)
          | some _ => false)
     | _ => false)

/-- The guess combinations a speculative run generates for a profile. -/
def runCombos (p : UserProfile) : List (List (String × Value)) :=
  GuessedMatchingMCP.generate_guess_combinations
    (check_profile_completeness p).2

/-- The prepared per-combination tasks of a speculative run. -/
def runTasks (p : UserProfile) : List GuessedMatchingMCP.GuessTask :=
  GuessedMatchingMCP.prepareTasks (runCombos p) p.to_dict

/-- A sentinel "unset" value: the reserved string token, the reserved
numeric sentinel, or the empty sequence. -/
def isSentinelValue (v : Value) : Bool :=
  pyEq v (.str "UNKNOWN") || pyEq v (.num 65535) || pyEq v (.list [])

/-! ### Concrete profiles and oracles used as test inputs -/

/-- A profile whose missing important attributes are exactly GPA and
region (all essential attributes and the other important attributes are
set). -/
def gpaRegionProfile : UserProfile :=
  { defaultUserProfile with
      degree := .str "硕士", major := .str "计算机科学与技术",
      target_country := .str "美国", target_major := .str "计算机科学与技术",
      background_institution_rating := .str "985",
      rank_max := .num 50, budget_max := .num 500000 }

/-- A well-typed profile missing exactly `background_institution_rating`
(classified MINIMAL; its guess table entry has 3 candidates). -/
def minimalBirProfile : UserProfile :=
  { gpaRegionProfile with
      GPA := .num 88, region := .list [.str "美国"],
      background_institution_rating := .str "UNKNOWN" }

/-- A profile missing exactly the three important attributes GPA, region
and `background_institution_rating`. -/
def threeMissingProfile : UserProfile :=
  { gpaRegionProfile with background_institution_rating := .str "UNKNOWN" }

/-- A sample truthy payload of `POST /api/supplement_match`. -/
def sampleOkResult : Value :=
  .dict [("summary", .dict [("text", .str "找到了5个项目。详情见下。")])]

/-- An outcome in which only the first submitted call succeeds. -/
def firstOnlyOutcome : Nat → Option Value :=
  fun i => if i = 0 then some sampleOkResult else Option.none

/-- An outcome in which every call fails. -/
def allFailOutcome : Nat → Option Value := fun _ => Option.none

/-! ## Lemmas -/

mutual

theorem pyEq_refl (v : Value) : pyEq v v = true := by
  match v with
  | .num a => simp [pyEq]
  | .str a => simp [pyEq]
  | .bool a => simp [pyEq]
  | .none => simp [pyEq]
  | .list xs => simp [pyEq, pyEqList_refl xs]
  | .dict kvs => simp [pyEq, pyEqDict_refl kvs]

theorem pyEqList_refl (l : List Value) : pyEqList l l = true := by
  match l with
  | [] => simp [pyEqList]
  | x :: xs => simp [pyEqList, pyEq_refl x, pyEqList_refl xs]

theorem pyEqDict_refl (l : List (String × Value)) : pyEqDict l l = true := by
  match l with
  | [] => simp [pyEqDict]
  | (k, v) :: xs => simp [pyEqDict, pyEq_refl v, pyEqDict_refl xs]

end

mutual

theorem pyEq_symm (v w : Value) : pyEq v w = pyEq w v := by
  match v, w with
  | .num a, .num b => simp [pyEq, eq_comm]
  | .num a, .bool b => simp [pyEq, eq_comm]
  | .bool a, .num b => simp [pyEq, eq_comm]
  | .bool a, .bool b => simp [pyEq, eq_comm]
  | .str a, .str b => simp [pyEq, eq_comm]
  | .none, .none => simp [pyEq]
  | .list as, .list bs => simp [pyEq, pyEqList_symm as bs]
  | .dict as, .dict bs => simp [pyEq, pyEqDict_symm as bs]
  | .num a, .str b => simp [pyEq]
  | .num a, .none => simp [pyEq]
  | .num a, .list bs => simp [pyEq]
  | .num a, .dict bs => simp [pyEq]
  | .str a, .num b => simp [pyEq]
  | .str a, .bool b => simp [pyEq]
  | .str a, .none => simp [pyEq]
  | .str a, .list bs => simp [pyEq]
  | .str a, .dict bs => simp [pyEq]
  | .bool a, .str b => simp [pyEq]
  | .bool a, .none => simp [pyEq]
  | .bool a, .list bs => simp [pyEq]
  | .bool a, .dict bs => simp [pyEq]
  | .none, .num b => simp [pyEq]
  | .none, .str b => simp [pyEq]
  | .none, .bool b => simp [pyEq]
  | .none, .list bs => simp [pyEq]
  | .none, .dict bs => simp [pyEq]
  | .list as, .num b => simp [pyEq]
  | .list as, .str b => simp [pyEq]
  | .list as, .bool b => simp [pyEq]
  | .list as, .none => simp [pyEq]
  | .list as, .dict bs => simp [pyEq]
  | .dict as, .num b => simp [pyEq]
  | .dict as, .str b => simp [pyEq]
  | .dict as, .bool b => simp [pyEq]
  | .dict as, .none => simp [pyEq]
  | .dict as, .list bs => simp [pyEq]

theorem pyEqList_symm (a b : List Value) : pyEqList a b = pyEqList b a := by
  match a, b with
  | [], [] => simp [pyEqList]
  | [], y :: ys => simp [pyEqList]
  | x :: xs, [] => simp [pyEqList]
  | x :: xs, y :: ys =>
      simp [pyEqList, pyEq_symm x y, pyEqList_symm xs ys, Bool.and_comm]

theorem pyEqDict_symm (a b : List (String × Value)) :
    pyEqDict a b = pyEqDict b a := by
  match a, b with
  | [], [] => simp [pyEqDict]
  | [], y :: ys => simp [pyEqDict]
  | x :: xs, [] => simp [pyEqDict]
  | (k, x) :: xs, (l, y) :: ys =>
      simp [pyEqDict, pyEq_symm x y, pyEqDict_symm xs ys, eq_comm,
        Bool.and_comm, Bool.and_left_comm]

end

theorem pyMem_append (x : Value) (a b : List Value) :
    pyMem x (a ++ b) = (pyMem x a || pyMem x b) := by
  simp [pyMem, List.any_append]

theorem pyMem_self_append (x : Value) (a : List Value) :
    pyMem x (a ++ [x]) = true := by
  simp [pyMem_append, pyMem, pyEq_refl]

theorem getF_setF_same (p : UserProfile) (f : ProfileField) (v : Value) :
    getF (setF p f v) f = v := by
  cases f <;> rfl

theorem getF_setF_ne (p : UserProfile) (f g : ProfileField) (v : Value)
    (h : f ≠ g) : getF (setF p f v) g = getF p g := by
  cases f <;> cases g <;> first | rfl | exact absurd rfl h

theorem setF_getF_self (p : UserProfile) (f : ProfileField) :
    setF p f (getF p f) = p := by
  cases f <;> rfl

theorem fieldName_of_fieldOfName {k : String} {f : ProfileField}
    (h : fieldOfName k = some f) : fieldName f = k := by
  have := List.find?_some h
  simpa using this

theorem pyMem_mergeList (key : String) (cur items : List Value) (x : Value)
    (h : pyMem x cur = true) :
    pyMem x (mergeList key cur items).1 = true := by
  induction items generalizing cur with
  | nil => simpa [mergeList]
  | cons y ys ih =>
      by_cases hy : pyMem y cur
      · simpa [mergeList, hy] using ih cur h
      · have hx : pyMem x (cur ++ [y]) = true := by
          simp [pyMem_append, h]
        simpa [mergeList, hy] using ih (cur ++ [y]) hx

theorem pyMem_mergeList_of_mem (key : String) (cur items : List Value)
    (x : Value) (hx : x ∈ items) :
    pyMem x (mergeList key cur items).1 = true := by
  induction items generalizing cur with
  | nil => cases hx
  | cons y ys ih =>
      by_cases hy : pyMem y cur
      · rcases List.mem_cons.mp hx with rfl | hmem
        · simpa [mergeList, hy] using pyMem_mergeList key cur ys x hy
        · simpa [mergeList, hy] using ih cur hmem
      · rcases List.mem_cons.mp hx with rfl | hmem
        · have : pyMem x (cur ++ [x]) = true := pyMem_self_append x cur
          simpa [mergeList, hy] using pyMem_mergeList key (cur ++ [x]) ys x this
        · simpa [mergeList, hy] using ih (cur ++ [y]) hmem

theorem mergeList_saturated (key : String) (cur items : List Value)
    (h : ∀ x ∈ items, pyMem x cur = true) :
    mergeList key cur items = (cur, []) := by
  induction items with
  | nil => rfl
  | cons y ys ih =>
      have hy : pyMem y cur = true := h y (List.mem_cons_self y ys)
      have hrest : ∀ x ∈ ys, pyMem x cur = true :=
        fun x hx => h x (List.mem_cons_of_mem y hx)
      simp [mergeList, hy, ih hrest]

theorem mergeList_all_new (key : String) (cur items : List Value)
    (hnew : ∀ x ∈ items, pyMem x cur = false)
    (hdist : items.Pairwise (fun a b => pyEq b a = false)) :
    mergeList key cur items =
      (cur ++ items, List.replicate items.length key) := by
  induction items generalizing cur with
  | nil => simp [mergeList]
  | cons y ys ih =>
      have hy : pyMem y cur = false := hnew y (List.mem_cons_self y ys)
      obtain ⟨hhead, htail⟩ := List.pairwise_cons.mp hdist
      have hnew2 : ∀ x ∈ ys, pyMem x (cur ++ [y]) = false := by
        intro x hx
        have h1 : pyMem x cur = false := hnew x (List.mem_cons_of_mem y hx)
        have h2 : pyEq x y = false := hhead x hx
        have h3 : pyMem x [y] = false := by simp [pyMem, h2]
        rw [pyMem_append, h1, h3]
        rfl
      have := ih (cur ++ [y]) hnew2 htail
      simp [mergeList, hy, this, List.replicate_succ]

theorem list_listElems_of_isListV {v : Value} (h : isListV v = true) :
    Value.list (listElems v) = v := by
  cases v <;> simp_all [isListV, listElems]

theorem applyEntry_of_saturated (q : UserProfile) (e : String × Value)
    (h : entrySaturated q e = true) : applyEntry q e = (q, []) := by
  unfold applyEntry
  unfold entrySaturated at h
  cases hf : fieldOfName e.1 with
  | none => rfl
  | some f =>
      rw [hf] at h
      simp only at h ⊢
      by_cases hl : isListV (getF q f) && isListV e.2
      · rw [if_pos hl]
        rw [if_pos hl] at h
        have hs : ∀ x ∈ listElems e.2, pyMem x (listElems (getF q f)) = true :=
          List.all_eq_true.mp h
        rw [mergeList_saturated e.1 (listElems (getF q f)) (listElems e.2) hs]
        have hl2 := hl
        simp only [Bool.and_eq_true] at hl2
        rw [list_listElems_of_isListV hl2.1, setF_getF_self]
      · rw [if_neg hl]
        rw [if_neg hl] at h
        rw [if_pos h]

theorem entrySaturated_applyEntry (p : UserProfile) (e : String × Value) :
    entrySaturated (applyEntry p e).1 e = true := by
  unfold applyEntry entrySaturated
  cases hf : fieldOfName e.1 with
  | none => rfl
  | some f =>
      simp only
      by_cases hl : isListV (getF p f) && isListV e.2
      · rw [if_pos hl]
        simp only [getF_setF_same]
        have : isListV (Value.list (mergeList e.1 (listElems (getF p f)) (listElems e.2)).1) = true := rfl
        rw [this]
        have hl2 := hl
        simp only [Bool.and_eq_true] at hl2
        rw [hl2.2]
        simp only [Bool.and_self, if_pos]
        apply List.all_eq_true.mpr
        intro x hx
        exact pyMem_mergeList_of_mem e.1 (listElems (getF p f)) (listElems e.2) x hx
      · rw [if_neg hl]
        by_cases he : pyEq (getF p f) e.2
        · rw [if_pos he]
          simp only [if_neg hl]
          exact he
        · rw [if_neg he]
          simp only [getF_setF_same]
          by_cases hl2 : isListV e.2 && isListV e.2
          · rw [if_pos hl2]
            apply List.all_eq_true.mpr
            intro x hx
            simp [pyMem, List.any_eq_true]
            exact ⟨x, hx, pyEq_refl x⟩
          · rw [if_neg hl2]
            exact pyEq_refl e.2

theorem entrySaturated_applyEntry_ne (q : UserProfile) (d e : String × Value)
    (hne : e.1 ≠ d.1) :
    entrySaturated (applyEntry q d).1 e = entrySaturated q e := by
  unfold applyEntry
  cases hfd : fieldOfName d.1 with
  | none => rfl
  | some g =>
      simp only
      have key : ∀ w, entrySaturated (setF q g w) e = entrySaturated q e := by
        intro w
        unfold entrySaturated
        cases hfe : fieldOfName e.1 with
        | none => rfl
        | some f =>
            have hgf : g ≠ f := by
              intro hgf
              exact hne (by
                rw [← fieldName_of_fieldOfName hfe, ← fieldName_of_fieldOfName hfd, hgf])
            simp only [getF_setF_ne q g f w hgf]
      by_cases hl : isListV (getF q g) && isListV d.2
      · rw [if_pos hl]
        exact key _
      · rw [if_neg hl]
        by_cases he : pyEq (getF q g) d.2
        · rw [if_pos he]
        · rw [if_neg he]
          exact key _

theorem entrySaturated_upgradeProfile_ne (q : UserProfile)
    (patch : List (String × Value)) (e : String × Value)
    (h : ∀ d ∈ patch, e.1 ≠ d.1) :
    entrySaturated (upgradeProfile q patch).1 e = entrySaturated q e := by
  induction patch generalizing q with
  | nil => rfl
  | cons d rest ih =>
      have h1 : e.1 ≠ d.1 := h d (List.mem_cons_self d rest)
      have h2 : ∀ x ∈ rest, e.1 ≠ x.1 := fun x hx => h x (List.mem_cons_of_mem d hx)
      show entrySaturated (upgradeProfile (applyEntry q d).1 rest).1 e =
        entrySaturated q e
      rw [ih (applyEntry q d).1 h2, entrySaturated_applyEntry_ne q d e h1]

/-! ## Claims -/

/-- C7: For every profile and every update patch (a dict, so its keys are
distinct), applying the patch once and then applying the identical patch a
second time leaves the profile unchanged and makes the second application
return an empty changed-field list: no scalar field is reported changed
when its value already equals the patch value, and no list element already
present is appended or reported. -/
theorem upgradeProfile_idempotent (p : UserProfile)
    (patch : List (String × Value)) (h : (patch.map Prod.fst).Nodup) :
    upgradeProfile (upgradeProfile p patch).1 patch =
      ((upgradeProfile p patch).1, []) := by
  induction patch generalizing p with
  | nil => rfl
  | cons e rest ih =>
      rw [List.map_cons, List.nodup_cons] at h
      obtain ⟨he, hrest⟩ := h
      have hne : ∀ d ∈ rest, e.1 ≠ d.1 := by
        intro d hd heq
        exact he (heq ▸ List.mem_map_of_mem Prod.fst hd)
      have hsat : entrySaturated (upgradeProfile (applyEntry p e).1 rest).1 e = true := by
        rw [entrySaturated_upgradeProfile_ne _ rest e hne]
        exact entrySaturated_applyEntry p e
      have happly := applyEntry_of_saturated _ e hsat
      have h2 := ih (applyEntry p e).1 hrest
      show upgradeProfile (upgradeProfile (applyEntry p e).1 rest).1 (e :: rest) =
        ((upgradeProfile (applyEntry p e).1 rest).1, [])
      simp only [upgradeProfile, happly, h2]
      rfl

/-- C7 witness: a concrete profile and patch with distinct keys on which
the second application of the patch changes nothing. -/
theorem upgradeProfile_idempotent_witness :
    (([("GPA", Value.num 90), ("region", Value.list [Value.str "美国"]),
       ("research", Value.list [Value.str "A", Value.str "B"])].map
        (Prod.fst (α := String) (β := Value))).Nodup) ∧
    upgradeProfile
        (upgradeProfile defaultUserProfile
          [("GPA", Value.num 90), ("region", Value.list [Value.str "美国"]),
           ("research", Value.list [Value.str "A", Value.str "B"])]).1
        [("GPA", Value.num 90), ("region", Value.list [Value.str "美国"]),
         ("research", Value.list [Value.str "A", Value.str "B"])] =
      ((upgradeProfile defaultUserProfile
          [("GPA", Value.num 90), ("region", Value.list [Value.str "美国"]),
           ("research", Value.list [Value.str "A", Value.str "B"])]).1, []) :=
  ⟨by decide, upgradeProfile_idempotent defaultUserProfile _ (by decide)⟩

/-- C9: The changed-field list is not a set of distinct names: when a
single patch appends `k` new elements (pairwise distinct, none already
present) to one list-valued attribute, that attribute's name appears once
per appended element — `k` times — in the returned list. -/
theorem upgradeProfile_reports_name_per_element (p : UserProfile)
    (k : String) (f : ProfileField) (vs : List Value)
    (hf : fieldOfName k = some f) (hcur : isListV (getF p f) = true)
    (hnew : ∀ x ∈ vs, pyMem x (listElems (getF p f)) = false)
    (hdist : vs.Pairwise (fun a b => pyEq b a = false)) :
    (upgradeProfile p [(k, Value.list vs)]).2 = List.replicate vs.length k := by
  have hl : (isListV (getF p f) && isListV (Value.list vs)) = true := by
    rw [hcur]
    rfl
  have hm := mergeList_all_new k (listElems (getF p f)) vs hnew hdist
  have hone : upgradeProfile p [(k, Value.list vs)] =
      ((applyEntry p (k, Value.list vs)).1,
        (applyEntry p (k, Value.list vs)).2 ++ []) := rfl
  rw [hone]
  simp only [applyEntry, hf]
  rw [if_pos hl]
  show (mergeList k (listElems (getF p f)) vs).2 ++ [] =
    List.replicate vs.length k
  rw [hm]
  simp

/-- C9 witness: appending two fresh research entries reports the name
`research` twice. -/
theorem upgradeProfile_reports_name_per_element_witness :
    fieldOfName "research" = some ProfileField.research ∧
    (upgradeProfile defaultUserProfile
        [("research", Value.list [Value.str "A", Value.str "B"])]).2 =
      ["research", "research"] := by
  refine ⟨by decide, ?_⟩
  have h := upgradeProfile_reports_name_per_element defaultUserProfile
    "research" ProfileField.research [Value.str "A", Value.str "B"]
    (by decide) (by decide) (by decide) (by decide)
  simpa using h

theorem filter_map_isEmpty (l : List (String × Value))
    (f : String × Value → Bool) :
    ((l.filter f).map Prod.fst).isEmpty = !(l.any f) := by
  induction l with
  | nil => rfl
  | cons x xs ih =>
      by_cases h : f x <;> simp [List.filter_cons, h, ih]

/-- C2: the completeness classifier returns COMPLETE exactly when no
essential and no important attribute is missing (equal to a sentinel),
MINIMAL exactly when all essential attributes are present and at least
one important attribute is missing, and INCOMPLETE exactly when at least
one essential attribute is missing, regardless of the important
attributes. -/
theorem check_profile_completeness_classification (p : UserProfile) :
    ((check_profile_completeness p).1 = ProfileCompleteness.complete ↔
      ((essentialItems p).any (fun kv => isMissingValue kv.2) = false ∧
       (importantItems p).any (fun kv => isMissingValue kv.2) = false)) ∧
    ((check_profile_completeness p).1 = ProfileCompleteness.minimal ↔
      ((essentialItems p).any (fun kv => isMissingValue kv.2) = false ∧
       (importantItems p).any (fun kv => isMissingValue kv.2) = true)) ∧
    ((check_profile_completeness p).1 = ProfileCompleteness.incomplete ↔
      (essentialItems p).any (fun kv => isMissingValue kv.2) = true) := by
  have hE := filter_map_isEmpty (essentialItems p) (fun kv => isMissingValue kv.2)
  have hI := filter_map_isEmpty (importantItems p) (fun kv => isMissingValue kv.2)
  cases hA : (essentialItems p).any (fun kv => isMissingValue kv.2) <;>
    cases hB : (importantItems p).any (fun kv => isMissingValue kv.2) <;>
      rw [hA] at hE <;> rw [hB] at hI <;>
        simp [check_profile_completeness, missing_essential, missing_important,
          hE, hI] at *

theorem isSentinel_false_of_not_invalid {v : Value}
    (h : CertainMatchingMCP.isInvalidApiValue v = false) :
    isSentinelValue v = false := by
  simp [CertainMatchingMCP.isInvalidApiValue] at h
  obtain ⟨⟨⟨⟨h1, h2⟩, h3⟩, h4⟩, h5⟩ := h
  simp [isSentinelValue, h1, h3, h5]

/-- C8: the query body produced by serializing a profile for the external
matching service — in both the exact and the speculative path — contains
no attribute whose value is a sentinel ("UNKNOWN", 0xffff, or the empty
list). -/
theorem convert_profile_no_sentinels (p : UserProfile) :
    ((CertainMatchingMCP.convert_profile_to_api_format p).all
      (fun kv => !(isSentinelValue kv.2))) = true ∧
    ((GuessedMatchingMCP.convert_profile_to_api_format p).all
      (fun kv => !(isSentinelValue kv.2))) = true := by
  constructor
  · apply List.all_eq_true.mpr
    intro kv hkv
    simp only [CertainMatchingMCP.convert_profile_to_api_format] at hkv
    have h2 := (List.mem_filter.mp hkv).2
    simp only [Bool.not_eq_eq_eq_not, Bool.not_true] at h2 ⊢
    exact isSentinel_false_of_not_invalid h2
  · apply List.all_eq_true.mpr
    intro kv hkv
    simp only [GuessedMatchingMCP.convert_profile_to_api_format] at hkv
    have h2 := (List.mem_filter.mp hkv).2
    simp only [Bool.not_eq_eq_eq_not, Bool.not_true] at h2 ⊢
    exact isSentinel_false_of_not_invalid h2

theorem lookup_futureLog (outcome : Nat → Option Value) (order : List Nat)
    (i : Nat) (h : i ∈ order) :
    List.lookup i (GuessedMatchingMCP.futureLog outcome order) =
      some (outcome i) := by
  induction order with
  | nil => cases h
  | cons j rest ih =>
      simp only [GuessedMatchingMCP.futureLog, List.map_cons, List.lookup]
      by_cases hij : i = j
      · subst hij
        simp
      · have hb : (i == j) = false := by simp [hij]
        rw [hb]
        rcases List.mem_cons.mp h with h1 | h2
        · exact absurd h1 hij
        · exact ih h2

theorem fst_lt_of_mem_enum {α : Type} {l : List α} {it : Nat × α}
    (h : it ∈ l.enum) : it.1 < l.length := by
  have := List.mem_enum_iff_getElem?.mp h
  exact (List.getElem?_eq_some.mp this).1

theorem parallel_calls_canonical (tasks : List GuessedMatchingMCP.GuessTask)
    (outcome : Nat → Option Value) (order : List Nat)
    (h : ∀ i < tasks.length, i ∈ order) :
    GuessedMatchingMCP.parallel_api_calls_with_threads tasks outcome order =
      generationOrderResults tasks outcome := by
  unfold GuessedMatchingMCP.parallel_api_calls_with_threads
    generationOrderResults
  apply List.filterMap_congr
  intro it hit
  rw [lookup_futureLog outcome order it.1 (h it.1 (fst_lt_of_mem_enum hit))]
  cases outcome it.1 with
  | none => rfl
  | some r => rfl

/-- C5: for every speculative batch and every order in which the
concurrent calls happen to complete, the aggregation produces the same
output — the per-combination results in cross-product generation
(submission) order — so two runs with identical inputs and identical
per-call outcomes produce identically-ordered output regardless of
network timing. -/
theorem parallel_results_order_deterministic
    (tasks : List GuessedMatchingMCP.GuessTask) (outcome : Nat → Option Value)
    (o1 o2 : List Nat)
    (h1 : o1.Perm (List.range tasks.length))
    (h2 : o2.Perm (List.range tasks.length)) :
    GuessedMatchingMCP.parallel_api_calls_with_threads tasks outcome o1 =
      GuessedMatchingMCP.parallel_api_calls_with_threads tasks outcome o2 ∧
    GuessedMatchingMCP.parallel_api_calls_with_threads tasks outcome o1 =
      generationOrderResults tasks outcome := by
  have m1 : ∀ i < tasks.length, i ∈ o1 := fun i hi =>
    h1.mem_iff.mpr (List.mem_range.mpr hi)
  have m2 : ∀ i < tasks.length, i ∈ o2 := fun i hi =>
    h2.mem_iff.mpr (List.mem_range.mpr hi)
  have c1 := parallel_calls_canonical tasks outcome o1 m1
  have c2 := parallel_calls_canonical tasks outcome o2 m2
  exact ⟨c1.trans c2.symm, c1⟩

/-- C5 witness: two submitted calls, completing in opposite orders,
aggregate identically and in submission order. -/
theorem parallel_results_order_deterministic_witness :
    GuessedMatchingMCP.parallel_api_calls_with_threads
        [⟨[("degree", Value.str "硕士")], "组合1", [], []⟩,
         ⟨[("degree", Value.str "学士")], "组合2", [], []⟩]
        firstOnlyOutcome [1, 0] =
      GuessedMatchingMCP.parallel_api_calls_with_threads
        [⟨[("degree", Value.str "硕士")], "组合1", [], []⟩,
         ⟨[("degree", Value.str "学士")], "组合2", [], []⟩]
        firstOnlyOutcome [0, 1] ∧
    GuessedMatchingMCP.parallel_api_calls_with_threads
        [⟨[("degree", Value.str "硕士")], "组合1", [], []⟩,
         ⟨[("degree", Value.str "学士")], "组合2", [], []⟩]
        firstOnlyOutcome [1, 0] =
      generationOrderResults
        [⟨[("degree", Value.str "硕士")], "组合1", [], []⟩,
         ⟨[("degree", Value.str "学士")], "组合2", [], []⟩]
        firstOnlyOutcome :=
  parallel_results_order_deterministic _ firstOnlyOutcome [1, 0] [0, 1]
    (by decide) (by decide)

theorem length_filterMap_enumFrom {α β : Type} (k : Nat) (l : List α)
    (F : Nat × α → Option β) (g : Nat → Bool)
    (h : ∀ i x, (F (i, x)).isSome = g i) :
    ((List.enumFrom k l).filterMap F).length =
      ((List.range' k l.length).filter g).length := by
  induction l generalizing k with
  | nil => rfl
  | cons x xs ih =>
      show (((k, x) :: List.enumFrom (k + 1) xs).filterMap F).length =
        ((k :: List.range' (k + 1) xs.length).filter g).length
      rw [List.filterMap_cons, List.filter_cons]
      cases hF : F (k, x) with
      | none =>
          have hg : g k = false := by
            rw [← h k x, hF]
            rfl
          simp [hg, ih (k + 1)]
      | some b =>
          have hg : g k = true := by
            rw [← h k x, hF]
            rfl
          simp [hg, ih (k + 1)]

theorem length_generationOrderResults
    (tasks : List GuessedMatchingMCP.GuessTask) (outcome : Nat → Option Value) :
    (generationOrderResults tasks outcome).length =
      successCount tasks outcome := by
  unfold generationOrderResults successCount
  rw [show tasks.enum = List.enumFrom 0 tasks from rfl,
      List.range_eq_range']
  apply length_filterMap_enumFrom
  intro i x
  unfold callSucceeds
  cases outcome i with
  | none => rfl
  | some r => by_cases hr : pyTruthy r <;> simp [hr]

theorem summaryTextOf_of_safe (r : Value) (ht : pyTruthy r = true)
    (h : payloadDigestSafe r = true) :
    GuessedMatchingMCP.summaryTextOf r = Except.ok Option.none ∨
    (∃ t, GuessedMatchingMCP.summaryTextOf r = Except.ok (some t) ∧
      (pyTruthy t = false ∨ isStrV t = true)) := by
  cases r with
  | num n => simp [payloadDigestSafe, ht] at h
  | str a => simp [payloadDigestSafe, ht] at h
  | bool b => simp [payloadDigestSafe, ht] at h
  | none => simp [payloadDigestSafe, ht] at h
  | list xs => simp [payloadDigestSafe, ht] at h
  | dict kvs =>
      simp only [payloadDigestSafe, ht, Bool.not_true, Bool.false_or] at h
      unfold GuessedMatchingMCP.summaryTextOf
      cases hs : List.lookup "summary" kvs with
      | none =>
          left
          simp only [hs]
      | some sv =>
          simp only [hs] at h
          cases sv with
          | num n => simp at h
          | str a => simp at h
          | bool b => simp at h
          | none => simp at h
          | list xs => simp at h
          | dict skvs =>
              simp only [hs]
              cases hts : List.lookup "text" skvs with
              | none =>
                  left
                  simp only [hts]
              | some t =>
                  simp only [hts] at h
                  right
                  refine ⟨t, by simp only [hts], ?_⟩
                  by_cases htt : pyTruthy t
                  · right
                    simpa [htt] using h
                  · left
                    simpa using htt

theorem resultDigest_ok_of_safe (res : GuessedMatchingMCP.GuessResult)
    (h : payloadDigestSafe res.results = true) :
    ∃ s, GuessedMatchingMCP.resultDigest res = Except.ok s := by
  unfold GuessedMatchingMCP.resultDigest
  by_cases ht : pyTruthy res.results
  · rw [if_pos ht]
    rcases summaryTextOf_of_safe res.results ht h with hst | ⟨t, hst, htt⟩
    · simp only [hst]
      exact ⟨_, rfl⟩
    · simp only [hst]
      rcases htt with htf | hstr
      · rw [if_neg (by simp [htf])]
        exact ⟨_, rfl⟩
      · by_cases htt2 : pyTruthy t
        · rw [if_pos htt2]
          cases t with
          | str st => exact ⟨_, rfl⟩
          | num n => simp [isStrV] at hstr
          | bool b => simp [isStrV] at hstr
          | none => simp [isStrV] at hstr
          | list xs => simp [isStrV] at hstr
          | dict d => simp [isStrV] at hstr
        · rw [if_neg htt2]
          exact ⟨_, rfl⟩
  · rw [if_neg ht]
    exact ⟨_, rfl⟩

theorem resultsSummary_ok (rs : List GuessedMatchingMCP.GuessResult)
    (h : ∀ r ∈ rs, ∃ s, GuessedMatchingMCP.resultDigest r = Except.ok s) :
    ∃ s, GuessedMatchingMCP.resultsSummary rs = Except.ok s := by
  induction rs with
  | nil => exact ⟨"", rfl⟩
  | cons r rest ih =>
      obtain ⟨d, hd⟩ := h r (List.mem_cons_self r rest)
      obtain ⟨ds, hds⟩ := ih (fun x hx => h x (List.mem_cons_of_mem r hx))
      exact ⟨d ++ ds, by simp [GuessedMatchingMCP.resultsSummary, hd, hds]⟩

theorem outcome_of_mem_generationOrderResults
    (tasks : List GuessedMatchingMCP.GuessTask)
    (outcome : Nat → Option Value) (res : GuessedMatchingMCP.GuessResult)
    (h : res ∈ generationOrderResults tasks outcome) :
    ∃ i, outcome i = some res.results := by
  unfold generationOrderResults at h
  obtain ⟨it, hit, hF⟩ := List.mem_filterMap.mp h
  cases ho : outcome it.1 with
  | none => rw [ho] at hF; simp at hF
  | some r =>
      rw [ho] at hF
      by_cases hr : pyTruthy r
      · have hF2 : some (GuessedMatchingMCP.GuessResult.mk it.2.guess
            it.2.temp_profile_dict r it.2.guess_info) = some res := by
          rw [← hF]
          simp [hr]
        have heq := Option.some.inj hF2
        exact ⟨it.1, by rw [ho, ← heq]⟩
      · simp [hr] at hF

/-- C3: for every speculative run in which every combination's call is
issued, at least one succeeds, and every successful payload is one the
digest loop can narrate (a well-formed response per the service
contract), the run returns a SUCCESS envelope whose data reports
`successful_combinations` equal to the number of successful calls and
`failed_combinations` equal to the total minus the successes; failed
calls never abort the batch. -/
theorem run_counts_partial_success (p : UserProfile)
    (outcome : Nat → Option Value) (order : List Nat)
    (horder : order.Perm (List.range (runTasks p).length))
    (hc : (check_profile_completeness p).1 ≠ ProfileCompleteness.complete)
    (hlen : (check_profile_completeness p).2.length ≤ 2)
    (htasks : (runTasks p).length = (runCombos p).length)
    (hs : 1 ≤ successCount (runTasks p) outcome)
    (hsafe : ∀ i r, outcome i = some r → payloadDigestSafe r = true) :
    (GuessedMatchingMCP.run p outcome order).1.status = MCPStatus.success ∧
    (GuessedMatchingMCP.run p outcome order).1.data.map
        (fun d => (d.total_combinations, d.successful_combinations,
          d.failed_combinations)) =
      some ((runCombos p).length, successCount (runTasks p) outcome,
        (runCombos p).length - successCount (runTasks p) outcome) := by
  have hmem : ∀ i < (runTasks p).length, i ∈ order := fun i hi =>
    horder.mem_iff.mpr (List.mem_range.mpr hi)
  have hcan := parallel_calls_canonical (runTasks p) outcome order hmem
  have hlenres :
      (GuessedMatchingMCP.parallel_api_calls_with_threads (runTasks p)
        outcome order).length = successCount (runTasks p) outcome := by
    rw [hcan, length_generationOrderResults]
  have ht1 : (runTasks p).length ≠ 0 := by
    intro h0
    unfold successCount at hs
    rw [h0] at hs
    simp at hs
  have hcombone :
      (GuessedMatchingMCP.generate_guess_combinations
        (check_profile_completeness p).2).isEmpty = false := by
    show (runCombos p).isEmpty = false
    cases hcb : runCombos p with
    | nil =>
        rw [htasks, hcb] at ht1
        simp at ht1
    | cons a l => rfl
  have hresne :
      (GuessedMatchingMCP.parallel_api_calls_with_threads (runTasks p)
        outcome order).isEmpty = false := by
    cases hres : GuessedMatchingMCP.parallel_api_calls_with_threads
        (runTasks p) outcome order with
    | nil =>
        rw [hres] at hlenres
        simp at hlenres
        omega
    | cons a l => rfl
  have hall : ∀ res ∈ GuessedMatchingMCP.parallel_api_calls_with_threads
      (runTasks p) outcome order,
      ∃ s, GuessedMatchingMCP.resultDigest res = Except.ok s := by
    intro res hres
    rw [hcan] at hres
    obtain ⟨i, hi⟩ := outcome_of_mem_generationOrderResults _ _ _ hres
    exact resultDigest_ok_of_safe res (hsafe i res.results hi)
  obtain ⟨rsum, hrsum⟩ := resultsSummary_ok _ hall
  simp only [GuessedMatchingMCP.run]
  rw [if_neg hc, if_neg (by omega : ¬2 < (check_profile_completeness p).2.length)]
  rw [if_neg (by simp [hcombone])]
  rw [show GuessedMatchingMCP.prepareTasks
      (GuessedMatchingMCP.generate_guess_combinations
        (check_profile_completeness p).2) p.to_dict = runTasks p from rfl]
  rw [if_neg (by simp [hresne])]
  show ((GuessedMatchingMCP.assembleGuessedResponse _ _ _ _, _) :
    MCPResponse GuessedMatchingMCP.GuessedData × Nat).1.status = _ ∧ _
  simp only [GuessedMatchingMCP.assembleGuessedResponse, hrsum]
  refine ⟨rfl, ?_⟩
  simp only [MCPResponse.success, Option.map_some]
  rw [hlenres]
  rfl

/-- C3 witness: three combinations are issued for a profile missing only
the institution tier; one call succeeds with a well-formed payload and
the run reports `(total, successful, failed) = (3, 1, 2)` with SUCCESS
status. -/
theorem run_counts_partial_success_witness :
    1 ≤ successCount (runTasks minimalBirProfile) firstOnlyOutcome ∧
    (runCombos minimalBirProfile).length = 3 ∧
    successCount (runTasks minimalBirProfile) firstOnlyOutcome = 1 ∧
    (GuessedMatchingMCP.run minimalBirProfile firstOnlyOutcome
      [2, 0, 1]).1.status = MCPStatus.success ∧
    (GuessedMatchingMCP.run minimalBirProfile firstOnlyOutcome
      [2, 0, 1]).1.data.map
        (fun d => (d.total_combinations, d.successful_combinations,
          d.failed_combinations)) =
      some ((runCombos minimalBirProfile).length,
        successCount (runTasks minimalBirProfile) firstOnlyOutcome,
        (runCombos minimalBirProfile).length -
          successCount (runTasks minimalBirProfile) firstOnlyOutcome) := by
  have h := run_counts_partial_success minimalBirProfile firstOnlyOutcome
    [2, 0, 1] (by decide) (by decide) (by decide) (by decide) (by decide)
    (by
      intro i r hir
      by_cases hi : i = 0
      · subst hi
        simp only [firstOnlyOutcome, if_pos rfl] at hir
        rw [← Option.some.inj hir]
        decide
      · simp [firstOnlyOutcome, hi] at hir)
  exact ⟨by decide, by decide, by decide, h.1, h.2⟩

/-- C4: for every profile missing exactly three important attributes
(more than the cap of 2), the speculative matcher returns the
`TooManyUnknowns` error — whose message carries the missing attribute
names and their count — before issuing any external call: the call
count is 0. -/
theorem run_too_many_unknowns (p : UserProfile)
    (outcome : Nat → Option Value) (order : List Nat)
    (h : (missing_important p).length = 3) :
    GuessedMatchingMCP.run p outcome order =
      (MCPResponse.error
        (GuessedMatchingMCP.tooManyMsg (check_profile_completeness p).2),
       0) := by
  have hIne : (missing_important p).isEmpty = false := by
    cases hmp : missing_important p with
    | nil =>
        rw [hmp] at h
        simp at h
    | cons a l => rfl
  cases hbE : (missing_essential p).isEmpty with
  | true =>
      have hc : check_profile_completeness p =
          (ProfileCompleteness.minimal, missing_important p) := by
        simp [check_profile_completeness, hbE, hIne]
      simp only [GuessedMatchingMCP.run, hc]
      rw [if_neg (by simp)]
      rw [if_pos (by omega : 2 < (missing_important p).length)]
  | false =>
      have hc : check_profile_completeness p =
          (ProfileCompleteness.incomplete,
            missing_essential p ++ missing_important p) := by
        simp [check_profile_completeness, hbE]
      simp only [GuessedMatchingMCP.run, hc]
      rw [if_neg (by simp)]
      rw [if_pos (by simp [List.length_append, h] : 2 <
        (missing_essential p ++ missing_important p).length)]

/-- C4 witness: a profile missing GPA, region and institution tier is
rejected with the `TooManyUnknowns` message and zero external calls. -/
theorem run_too_many_unknowns_witness :
    (missing_important threeMissingProfile).length = 3 ∧
    GuessedMatchingMCP.run threeMissingProfile allFailOutcome [] =
      (MCPResponse.error
        (GuessedMatchingMCP.tooManyMsg
          (check_profile_completeness threeMissingProfile).2), 0) :=
  ⟨by decide, run_too_many_unknowns threeMissingProfile allFailOutcome []
    (by decide)⟩

/-- C6 counterexample: a speculative run with one successful combination
returns a SUCCESS envelope whose `match_type` is NOT
`"guessed_parallel"` (it is `"guessed_parallel_threads"`). -/
theorem run_match_type_not_guessed_parallel :
    (GuessedMatchingMCP.run minimalBirProfile firstOnlyOutcome
      [0, 1, 2]).1.status = MCPStatus.success ∧
    (GuessedMatchingMCP.run minimalBirProfile firstOnlyOutcome
      [0, 1, 2]).1.data.map GuessedMatchingMCP.GuessedData.match_type ≠
      some "guessed_parallel" := by
  constructor
  · decide
  · decide

/-- C6 amended: for every speculative run that returns a SUCCESS
envelope (at least one combination's call succeeded), the envelope's
data carries `match_type = "guessed_parallel_threads"`. -/
theorem run_match_type_threads (p : UserProfile)
    (outcome : Nat → Option Value) (order : List Nat)
    (h : (GuessedMatchingMCP.run p outcome order).1.status =
      MCPStatus.success) :
    (GuessedMatchingMCP.run p outcome order).1.data.map
        GuessedMatchingMCP.GuessedData.match_type =
      some "guessed_parallel_threads" := by
  have key : ∀ (m : List String) (c : ProfileCompleteness) (n : Nat)
      (rs : List GuessedMatchingMCP.GuessResult),
      (GuessedMatchingMCP.assembleGuessedResponse m c n rs).status =
        MCPStatus.success →
      (GuessedMatchingMCP.assembleGuessedResponse m c n rs).data.map
          GuessedMatchingMCP.GuessedData.match_type =
        some "guessed_parallel_threads" := by
    intro m c n rs hsucc
    unfold GuessedMatchingMCP.assembleGuessedResponse at hsucc ⊢
    cases hrs : GuessedMatchingMCP.resultsSummary rs with
    | error e =>
        rw [hrs] at hsucc
        simp [MCPResponse.error] at hsucc
    | ok rsum =>
        simp [MCPResponse.success]
  simp only [GuessedMatchingMCP.run] at h ⊢
  split_ifs at h ⊢ <;>
    first
      | exact key _ _ _ _ h
      | simp_all [MCPResponse.error]

/-- C6 amended witness: a successful concrete run carries
`match_type = "guessed_parallel_threads"`. -/
theorem run_match_type_threads_witness :
    (GuessedMatchingMCP.run minimalBirProfile firstOnlyOutcome
      [2, 1, 0]).1.status = MCPStatus.success ∧
    (GuessedMatchingMCP.run minimalBirProfile firstOnlyOutcome
      [2, 1, 0]).1.data.map GuessedMatchingMCP.GuessedData.match_type =
      some "guessed_parallel_threads" :=
  ⟨by decide, run_match_type_threads minimalBirProfile firstOnlyOutcome
    [2, 1, 0] (by decide)⟩

/-- C1: the code contradicts this claim.  For a profile whose missing
important attributes are exactly GPA and region, the completeness check
reports the names `["GPA", "region"]`, but the static guess table keys
its GPA entry as `"gpa"`, so the name `"GPA"` finds no table entry: only
region (5 candidates) is guessed and the matcher generates and attempts
5 combinations, not 15 = 3 × 5. -/
theorem gpa_region_attempts_five_not_fifteen :
    check_profile_completeness gpaRegionProfile =
      (ProfileCompleteness.minimal, ["GPA", "region"]) ∧
    (GuessedMatchingMCP.guessOptionsFor "gpa").isSome = true ∧
    GuessedMatchingMCP.guessOptionsFor "GPA" = Option.none ∧
    (GuessedMatchingMCP.generate_guess_combinations
      ["GPA", "region"]).length = 5 ∧
    (GuessedMatchingMCP.run gpaRegionProfile allFailOutcome
      [0, 1, 2, 3, 4]).2 = 5 ∧
    (5 : Nat) ≠ 15 := by
  refine ⟨by decide, by decide, rfl, by decide, by decide, by decide⟩

theorem minimal_essential_empty (p : UserProfile)
    (h : (check_profile_completeness p).1 = ProfileCompleteness.minimal) :
    (missing_essential p).isEmpty = true := by
  cases hbE : (missing_essential p).isEmpty with
  | true => rfl
  | false => simp [check_profile_completeness, hbE] at h

theorem degree_not_missing_of_essential_empty (p : UserProfile)
    (h : (missing_essential p).isEmpty = true) :
    isMissingValue p.degree = false := by
  cases hx : isMissingValue p.degree with
  | false => rfl
  | true => simp [missing_essential, essentialItems, List.filter_cons, hx] at h

/-- C10: the exact-match executor rejects with the incomplete-profile
error (and zero external calls) only profiles classified INCOMPLETE; a
well-typed profile classified MINIMAL passes the gate — its serialized
query body is non-empty and the executor issues the external calls (one
if the first call raises, two otherwise) — even though the documented
precondition is a COMPLETE classification. -/
theorem certain_rejects_only_incomplete (p : UserProfile)
    (o1 o2 : Except String Value) (hw : WellTyped p = true) :
    ((check_profile_completeness p).1 = ProfileCompleteness.incomplete →
      CertainMatchingMCP.run p o1 o2 =
        (MCPResponse.error
          (CertainMatchingMCP.incompleteMsg
            (check_profile_completeness p).2), 0)) ∧
    ((check_profile_completeness p).1 = ProfileCompleteness.minimal →
      CertainMatchingMCP.convert_profile_to_api_format p ≠ [] ∧
      (CertainMatchingMCP.run p o1 o2).2 =
        (match o1 with
         | .ok _ => 2
         | .error _ => 1)) := by
  constructor
  · intro h
    simp only [CertainMatchingMCP.run]
    rw [if_pos h]
  · intro h
    have hE := minimal_essential_empty p h
    have hdm := degree_not_missing_of_essential_empty p hE
    have hstr : isStrV p.degree = true := by
      simp only [WellTyped, Bool.and_eq_true] at hw
      tauto
    obtain ⟨s, hdeg⟩ : ∃ s, p.degree = Value.str s := by
      cases hq : p.degree <;> simp [hq, isStrV] at hstr
      exact ⟨_, rfl⟩
    have hs_ne : ¬(s = "UNKNOWN") := by
      rw [hdeg] at hdm
      simp [isMissingValue, pyEq] at hdm
      exact hdm
    have hinv : CertainMatchingMCP.isInvalidApiValue (Value.str s) = false := by
      simp [CertainMatchingMCP.isInvalidApiValue, pyEq, hs_ne]
    have hmem : ("degree", p.degree) ∈
        CertainMatchingMCP.convert_profile_to_api_format p := by
      unfold CertainMatchingMCP.convert_profile_to_api_format
      apply List.mem_filter.mpr
      refine ⟨List.mem_cons_self _ _, ?_⟩
      rw [hdeg]
      simp [hinv]
    have hconvne : CertainMatchingMCP.convert_profile_to_api_format p ≠ [] :=
      List.ne_nil_of_mem hmem
    refine ⟨hconvne, ?_⟩
    have hne_inc : ¬((check_profile_completeness p).1 =
        ProfileCompleteness.incomplete) := by
      rw [h]
      simp
    have hempty : (CertainMatchingMCP.convert_profile_to_api_format
        p).isEmpty = false := by
      cases hcv : CertainMatchingMCP.convert_profile_to_api_format p with
      | nil => exact absurd hcv hconvne
      | cons a l => rfl
    simp only [CertainMatchingMCP.run]
    rw [if_neg hne_inc]
    rw [if_neg (by simp [hempty])]
    cases o1 with
    | error e => rfl
    | ok v1 =>
        cases o2 with
        | error e => rfl
        | ok v2 =>
            cases h1 : pyGetLen v1 "matches" with
            | error e => simp [h1]
            | ok sc =>
                cases h2 : pyGetLen v2 "cases" with
                | error e => simp [h1, h2]
                | ok cc => simp [h1, h2]

/-- C10 witness: a well-typed MINIMAL profile is not rejected — both
external calls are issued. -/
theorem certain_rejects_only_incomplete_witness :
    WellTyped minimalBirProfile = true ∧
    (check_profile_completeness minimalBirProfile).1 =
      ProfileCompleteness.minimal ∧
    (CertainMatchingMCP.convert_profile_to_api_format minimalBirProfile ≠ [] ∧
      (CertainMatchingMCP.run minimalBirProfile (.ok sampleOkResult)
        (.ok sampleOkResult)).2 = 2) := by
  have h := certain_rejects_only_incomplete minimalBirProfile
    (.ok sampleOkResult) (.ok sampleOkResult) (by decide)
  exact ⟨by decide, by decide, h.2 (by decide)⟩
